import Mathlib

/-!
Verification of the sensirion_epics driver layer: a shallow embedding of the
checksum engine, the unit conversions, the acquisition-session guard and the
device setters of the SCD30/SCD4x and SHT2x/SHT85 drivers, together with
theorems settling the specification claims.

Modelling conventions.
* Python machine integers are modelled as `Nat` (Python ints are unbounded, so
  no masking is added beyond what the code itself performs).
* Python floats are modelled exactly: by `Rat` where the code only uses field
  operations and rounding, and by `Real` where `math.exp` / `math.log` occur.
  Python's `round(x, 2)` is modelled as rounding `100 * x` to the nearest
  integer; at every concrete input used below the value is not a tie, so the
  model agrees with Python's round-half-even.
* The `calculate_crc` decorator only wraps an optional CRC check around the
  decorated body, so a plain method call through it is embedded as the body.
  The `printer` decorator's wrapper has the signature
  `wrapper(self, **kwargs)`, while the property protocol passes the assigned
  value as a second positional argument, so every property assignment
  through `printer` raises `TypeError` before the wrapped setter body can
  run; property-setter assignments are embedded with exactly that calling
  semantics.
* Methods with bus I/O are embedded as functions returning the list of issued
  bus writes together with the escaping Python exception, if any; exception
  classes that the embedded code distinguishes are the constructors of
  `PyExc`.
-/

/-- The Python exception classes distinguished by the embedded code. -/
inductive PyExc where
  | typeError
  | fileNotFoundError
  | keyboardInterrupt
  | systemExit
  | assertionError
  | osError
  deriving DecidableEq, Repr

/-- The mutable state tracked for the session-guard model: whether the
`SMBus` handle of the device is currently open. -/
structure BusState where
  busOpen : Bool
  deriving DecidableEq, Repr

namespace Sensirion

/-- One pass of the inner 8-iteration loop of `crc8`
(`sensirion_base.py` lines 45-52): extract the top bit, shift left,
conditionally XOR with the polynomial 0x131. -/
def crcStep (crc : ℕ) : ℕ :=
  if crc &&& 0x80 = 0 then crc <<< 1 else (crc <<< 1) ^^^ 0x131

/-- Processing of one input byte by `crc8`: XOR the byte into the register,
run the 8 shift iterations, then the code's final `crc ^= 0x00`. -/
def crcByte (crc byte : ℕ) : ℕ :=
  (crcStep^[8] (crc ^^^ byte)) ^^^ 0x00

/-- Function `crc8` from `sensirion_base.py` lines 36-55: register initialised
to 0xFF, each buffer byte processed in turn. -/
def crc8 (buffer : List ℕ) : ℕ :=
  buffer.foldl crcByte 0xFF

/-- Method `SensirionI2C.check_crc` (`sensirion_base.py` lines 154-162): walk the
buffer in strides of 3, comparing each third byte with the CRC of the two
bytes before it; the accumulated `crc_status` flag is returned
(`some status`).  On a buffer whose length is not a multiple of 3 the code
would index past the end, modelled as `none`. -/
def check_crc : List ℕ → Option Bool
  | [] => some true
  | b0 :: b1 :: c :: rest =>
    match check_crc rest with
    | some s => some ((c == crc8 [b0, b1]) && s)
    | none => none
  | _ => none

/-- Method `SensirionI2C.close_rpi_bus` (`sensirion_base.py` lines 135-140):
`self.stop()` is attempted inside a `try` whose only handler catches
`TypeError` (the "bus never opened properly" case); `self.bus.close()` runs
after the `try`/`except` block.  `stopOutcome` is the behaviour of the
device's `stop()` method during this call (`none` = returns normally,
`some e` = raises `e`).  The result is the final bus state together with the
exception, if any, escaping `close_rpi_bus`: when `stop()` raises anything
other than `TypeError`, the `except TypeError` handler does not match, so
`self.bus.close()` is never reached and the exception propagates. -/
def close_rpi_bus (stopOutcome : Option PyExc) (s : BusState) : BusState × Option PyExc :=
  match stopOutcome with
  | none => ({ s with busOpen := false }, none)
  | some .typeError => ({ s with busOpen := false }, none)
  | some e => (s, some e)

/-- The `except` clauses of `i2c_daq` (`sensirion_base.py` lines 147-150):
`FileNotFoundError` is caught and logged, `KeyboardInterrupt` and
`SystemExit` are caught and logged; every other exception keeps
propagating. -/
def i2c_daq_handle (e : PyExc) : Option PyExc :=
  match e with
  | .fileNotFoundError => none
  | .keyboardInterrupt => none
  | .systemExit => none
  | e => some e

/-- Method `SensirionI2C.i2c_daq` (`sensirion_base.py` lines 142-152), the
acquisition-session guard.  `openOutcome` is the behaviour of
`open_rpi_bus()` (`none` = the bus is opened; `some e` = it raises `e` with
the bus left unopened), `bodyOutcome` the behaviour of the `with`-block body
run at the `yield`, `stopOutcome` the behaviour of `stop()` during the
teardown.  The `try`/`except`/`finally` semantics: exceptions from the `try`
part are filtered by the handlers, the `finally` clause
(`self.close_rpi_bus()`) always runs, and an exception raised inside
`finally` replaces any pending one. -/
def i2c_daq (openOutcome bodyOutcome stopOutcome : Option PyExc) (s : BusState) :
    BusState × Option PyExc :=
  let tryResult : BusState × Option PyExc :=
    match openOutcome with
    | some e => (s, i2c_daq_handle e)
    | none =>
      let s1 : BusState := { s with busOpen := true }
      match bodyOutcome with
      | none => (s1, none)
      | some e => (s1, i2c_daq_handle e)
  let fin := close_rpi_bus stopOutcome tryResult.1
  (fin.1,
    match fin.2 with
    | some e => some e
    | none => tryResult.2)

end Sensirion

namespace SCD

/-- The ready-status polling loop of `SCD30.fetch` (`scd30.py` lines 79-85)
and `SCD4x.fetch` (`scd4x.py` lines 92-97):
`while not self.ready_status: time.sleep(0.003)`.  `ready k` is the value
the k-th read of the ready-status register returns.  The loop is run for at
most `fuel` iterations: `some k` means it exited because the k-th read found
a nonzero status, `none` means it was still spinning when the fuel ran out.
The code itself has no retry cap, so no value of `fuel` is distinguished by
it. -/
def fetchPoll (ready : ℕ → ℕ) : ℕ → ℕ → Option ℕ
  | 0, _ => none
  | fuel + 1, k => if ready k ≠ 0 then some k else fetchPoll ready fuel (k + 1)

end SCD

namespace Sensirion

/-- Invocation of a `@printer`-decorated property setter by an attribute
assignment (`sensirion_base.py` lines 17-23): the wrapper signature is
`wrapper(self, **kwargs)`, while the property protocol passes the assigned
value as a second positional argument, so the call raises `TypeError`
before the wrapped setter body runs; no bus write is issued, for any
value. -/
def printer_property_assign (_value : ℕ) : List (List ℕ) × Option PyExc :=
  ([], some PyExc.typeError)

end Sensirion

/-- Sequencing of two embedded calls: if the first raised, the second never
runs; otherwise the writes accumulate and the second call's outcome
prevails. -/
def seqCall (first next : List (List ℕ) × Option PyExc) : List (List ℕ) × Option PyExc :=
  match first.2 with
  | some _ => first
  | none => (first.1 ++ next.1, next.2)

namespace SCD30

/-- Assignment `self.meas_interval = interval` dispatching to the
`@sensirion.printer`-decorated setter `SCD30.meas_interval` (`scd30.py`
lines 62-70): the `printer` wrapper raises `TypeError` on the positionally
passed value before the wrapped body — `assert 2 <= interval <= 1800` and
the block write — can run; zero bus writes for every argument. -/
def meas_interval_assign (interval : ℕ) : List (List ℕ) × Option PyExc :=
  Sensirion.printer_property_assign interval

/-- Assignment `self.automatic_self_calibration = state` dispatching to the
`@sensirion.printer`-decorated setter (`scd30.py` lines 95-114): `TypeError`
before the body (`assert state in [0, 1]` and the block write); zero bus
writes. -/
def automatic_self_calibration_assign (state : ℕ) : List (List ℕ) × Option PyExc :=
  Sensirion.printer_property_assign state

/-- Assignment `self.frc = co2_ppm` dispatching to the
`@sensirion.printer`-decorated setter `SCD30.frc` (`scd30.py` lines
124-136): the property protocol passes `co2_ppm` positionally to `printer`'s
`wrapper(self, **kwargs)`, which raises `TypeError` before the wrapped
body — and with it `assert 400 <= co2_ppm <= 2000` and the FRC block
write — can run; zero bus writes for every argument, in range or not. -/
def frc_assign (co2_ppm : ℕ) : List (List ℕ) × Option PyExc :=
  Sensirion.printer_property_assign co2_ppm

/-- Assignment `self.temp_offset = offset` dispatching to the
`@sensirion.printer`-decorated setter (`scd30.py` lines 146-153):
`TypeError` before the body; zero bus writes. -/
def temp_offset_assign (offset : ℕ) : List (List ℕ) × Option PyExc :=
  Sensirion.printer_property_assign offset

/-- Assignment `self.altitude_compensation = altitude` dispatching to the
`@sensirion.printer`-decorated setter (`scd30.py` lines 163-169):
`TypeError` before the body; zero bus writes. -/
def altitude_compensation_assign (altitude : ℕ) : List (List ℕ) × Option PyExc :=
  Sensirion.printer_property_assign altitude

/-- Constructor `SCD30.__init__` (`scd30.py` lines 19-28): after storing the
address and bus interface, it runs the `meas_interval`,
`automatic_self_calibration`, `frc`, `temp_offset` and
`altitude_compensation` property assignments in order; each is a
`printer`-decorated assignment, and the very first one raises `TypeError`,
ending construction.  The `SMBus` handle created by
`SensirionI2C.__init__` is unopened throughout. -/
def init_trace (meas_interval asc frc temp_offset altitude : ℕ) :
    List (List ℕ) × Option PyExc :=
  seqCall (seqCall (seqCall (seqCall (meas_interval_assign meas_interval)
    (automatic_self_calibration_assign asc)) (frc_assign frc))
    (temp_offset_assign temp_offset)) (altitude_compensation_assign altitude)

end SCD30

namespace SCD4x

/-- Call `self.stop()` on an SCD4x (`scd4x.py` lines 59-64): the body
invokes `self.write_data_i2c([0x3f, 0x86], wait=0.5)`, but the inherited
`write_data_i2c(self, cmd)` (`sensirion_base.py` lines 164-174) accepts no
`wait` keyword, so the call raises `TypeError` before any bus operation:
the stop command write is never issued. -/
def stop_call : List (List ℕ) × Option PyExc :=
  ([], some PyExc.typeError)

/-- Assignment `self.automatic_self_calibration = state` dispatching to the
`@sensirion.printer`-decorated setter (`scd4x.py` lines 108-116):
`TypeError` in the wrapper before the body (`assert state in [0, 1]`,
`self.stop()` and the set write); zero bus writes. -/
def automatic_self_calibration_assign (state : ℕ) : List (List ℕ) × Option PyExc :=
  Sensirion.printer_property_assign state

/-- Assignment `self.frc = frc` in `SCD4x.__init__` (`scd4x.py` line 26):
SCD4x defines no `frc` property (only the method `set_frc`), so this is a
plain attribute write: no bus I/O, no exception. -/
def frc_plain_attr (_frc : ℕ) : List (List ℕ) × Option PyExc :=
  ([], none)

/-- Assignment `self.temp_offset = offset` dispatching to the
`@sensirion.printer`-decorated setter (`scd4x.py` lines 145-156):
`TypeError` in the wrapper before the body; zero bus writes.  (The body,
were it ever run with a bound argument, would itself fail: its
`self.stop()` raises `TypeError` on the `wait=` keyword, and its
`offset * (2 ** 16 - 1) / 175 >> 8` applies `>>` to a float.) -/
def temp_offset_assign (offset : ℕ) : List (List ℕ) × Option PyExc :=
  Sensirion.printer_property_assign offset

/-- Assignment `self.altitude_compensation = altitude` dispatching to the
`@sensirion.printer`-decorated setter (`scd4x.py` lines 167-175):
`TypeError` in the wrapper before the body, so neither the body's
`self.stop()` call — which precedes its `assert 0 <= altitude <= 3000` —
nor the assert nor the set write ever runs; zero bus writes for every
altitude. -/
def altitude_compensation_assign (altitude : ℕ) : List (List ℕ) × Option PyExc :=
  Sensirion.printer_property_assign altitude

/-- Assignment `self.ambient_pressure = pressure` dispatching to the
`@sensirion.printer`-decorated setter (`scd4x.py` lines 185-193):
`TypeError` in the wrapper before the body; zero bus writes. -/
def ambient_pressure_assign (pressure : ℕ) : List (List ℕ) × Option PyExc :=
  Sensirion.printer_property_assign pressure

/-- Constructor `SCD4x.__init__` (`scd4x.py` lines 20-29): after storing the
address and bus interface, it runs the `automatic_self_calibration`
assignment, the plain `frc` attribute write, and the `temp_offset`,
`altitude_compensation` and `ambient_pressure` property assignments in
order; the first (`printer`-decorated) assignment raises `TypeError`,
ending construction.  The `SMBus` handle is unopened throughout. -/
def init_trace (asc frc temp_offset altitude ambient_pressure : ℕ) :
    List (List ℕ) × Option PyExc :=
  seqCall (seqCall (seqCall (seqCall (automatic_self_calibration_assign asc)
    (frc_plain_attr frc)) (temp_offset_assign temp_offset))
    (altitude_compensation_assign altitude)) (ambient_pressure_assign ambient_pressure)

end SCD4x

/-- Python's `round(x, 2)` on exact rational values: round `100 * x` to the
nearest integer (all inputs used in the development are non-ties, where
round-half-even and `round` agree) and divide back by 100. -/
def round2 (x : ℚ) : ℚ :=
  ((round (100 * x) : ℤ) : ℚ) / 100

/-- Python's `round(x, 2)` on real values, same convention as `round2`. -/
noncomputable def round2R (x : ℝ) : ℝ :=
  ((round (100 * x) : ℤ) : ℝ) / 100

namespace ConversionUtils

/-- Function `dew_point` from `conversion_utils.py` lines 26-37: Magnus formula with
the `MC` coefficient table of lines 12-23 (water: beta 17.62, lambda 243.12;
ice: beta 22.46, lambda 272.62), branch selected by `t >= 0`, result rounded
to 2 decimals. -/
noncomputable def dew_point (t rh : ℝ) : ℝ :=
  if 0 ≤ t then
    round2R (243.12 * (Real.log (rh / 100) + 17.62 * t / (243.12 + t)) /
      (17.62 - Real.log (rh / 100) - 17.62 * t / (243.12 + t)))
  else
    round2R (272.62 * (Real.log (rh / 100) + 22.46 * t / (272.62 + t)) /
      (22.46 - Real.log (rh / 100) - 22.46 * t / (272.62 + t)))

end ConversionUtils

namespace SHT

/-- Modelled from the spec: the module
`sensirion_epics.sensirion_i2c.sht.utils.conversion_utils`, which defines
the Magnus coefficient table `WT` used by `SHT.rhi_conversion` (`sht.py`
lines 31-38), is not among the source files; per the spec (§4.2) the
ice-branch correction uses the tabulated Magnus water/ice coefficients,
i.e. the same table as `MC` in the present `conversion_utils.py`:
beta/lambda = 17.62/243.12 for water. -/
noncomputable def WT_water_beta : ℝ := 17.62

/-- Modelled from the spec: water lambda of the `WT` table (see
`WT_water_beta`). -/
noncomputable def WT_water_lambda : ℝ := 243.12

/-- Modelled from the spec: ice beta of the `WT` table (see
`WT_water_beta`). -/
noncomputable def WT_ice_beta : ℝ := 22.46

/-- Modelled from the spec: ice lambda of the `WT` table (see
`WT_water_beta`). -/
noncomputable def WT_ice_lambda : ℝ := 272.62

/-- Method `SHT.rhi_conversion` (`sht.py` lines 31-38): ice-referenced relative
humidity,
`round(rhw * exp(beta_w * t / lambda_w) / exp(beta_i * t / lambda_i), 2)`,
floored to `1e-3` whenever the rounded value falls below `0.01`. -/
noncomputable def rhi_conversion (t rhw : ℝ) : ℝ :=
  let rh_analog := round2R (rhw * Real.exp (WT_water_beta * t / WT_water_lambda) /
    Real.exp (WT_ice_beta * t / WT_ice_lambda))
  if rh_analog < 1 / 100 then 1 / 1000 else rh_analog

/-- The relative-humidity branch of the base-class `SHT.read_measurement`
(`sht.py` line 49): `rhw if self.t >= 0 else self.rhi_conversion(rhw)`. -/
noncomputable def rh_select (t rhw : ℝ) : ℝ :=
  if 0 ≤ t then rhw else rhi_conversion t rhw

end SHT

namespace SHT85

/-- Method `SHT85.temp_conversion` (`sht85.py` lines 194-197):
`round(-45 + 175 * temp_digital / (2 ** 16 - 1), 2)`. -/
def temp_conversion (temp_digital : ℕ) : ℚ :=
  round2 (-45 + 175 * temp_digital / (2 ^ 16 - 1))

/-- Method `SHT85.rhw_conversion` (`sht85.py` lines 199-205):
`round(100 * rh_digital / (2 ** 16 - 1), 2)`, floored to `1e-3` whenever the
rounded value falls below `0.01`. -/
def rhw_conversion (rh_digital : ℕ) : ℚ :=
  let rh_analog := round2 (100 * rh_digital / (2 ^ 16 - 1))
  if rh_analog < 1 / 100 then 1 / 1000 else rh_analog

/-- The relative-humidity branch of `SHT85.read_measurement` (`sht85.py`
line 104): `rhw if self.t >= -45 else self.rhi_conversion(rhw)` — the
threshold is -45 °C, not 0 °C; the adjacent comment notes that Sensirion
calibrates these sensors with the above-water coefficients even for
t < 0 °C. -/
noncomputable def rh_select (t rhw : ℝ) : ℝ :=
  if -45 ≤ t then rhw else SHT.rhi_conversion t rhw

end SHT85

namespace SHT2x

/-- Method `SHT2x.temp_conversion` (`sht2x.py` lines 143-146):
`round(-46.85 + 175.72 * temp_digital / (2 ** 16 - 1), 2)`. -/
def temp_conversion (temp_digital : ℕ) : ℚ :=
  round2 (-(4685 / 100) + (17572 / 100) * temp_digital / (2 ^ 16 - 1))

/-- Method `SHT2x.rhw_conversion` (`sht2x.py` lines 148-154):
`round(-6 + 125 * rh_digital / (2 ** 16 - 1), 2)`, floored to `5e-3`
whenever the rounded value falls below `0.01`. -/
def rhw_conversion (rh_digital : ℕ) : ℚ :=
  let rh_analog := round2 (-6 + 125 * rh_digital / (2 ^ 16 - 1))
  if rh_analog < 1 / 100 then 5 / 1000 else rh_analog

/-- The relative-humidity branch of `SHT2x.read_measurement` (`sht2x.py`
line 69): `rhw if self.t >= -45 else self.rhi_conversion(rhw)` — threshold
-45 °C, as in `SHT85.read_measurement`. -/
noncomputable def rh_select (t rhw : ℝ) : ℝ :=
  if -45 ≤ t then rhw else SHT.rhi_conversion t rhw

end SHT2x

namespace SCD4x

/-- Method `SCD4x.temp_conversion` (`scd4x.py` lines 235-238): same span as the
SHT85, `round(-45 + 175 * temp_digital / (2 ** 16 - 1), 2)`. -/
def temp_conversion (temp_digital : ℕ) : ℚ :=
  round2 (-45 + 175 * temp_digital / (2 ^ 16 - 1))

/-- Method `SCD4x.rhw_conversion` (`scd4x.py` lines 240-246):
`round(100 * rh_digital / (2 ** 16 - 1), 2)`, floored to `1e-3`. -/
def rhw_conversion (rh_digital : ℕ) : ℚ :=
  let rh_analog := round2 (100 * rh_digital / (2 ^ 16 - 1))
  if rh_analog < 1 / 100 then 1 / 1000 else rh_analog

end SCD4x

namespace Sensirion

lemma and128_eq_zero_iff (x : ℕ) : x &&& 128 = 0 ↔ x.testBit 7 = false := by
  have h128 : (128 : ℕ) = 2 ^ 7 := by norm_num
  constructor
  · intro h
    by_contra hb
    rw [Bool.not_eq_false] at hb
    have ht : (x &&& 128).testBit 7 = true := by
      rw [Nat.testBit_and, hb, h128, Nat.testBit_two_pow_self, Bool.and_self]
    rw [h, Nat.zero_testBit] at ht
    exact Bool.false_ne_true ht
  · intro h
    apply Nat.eq_of_testBit_eq
    intro i
    rw [Nat.testBit_and, Nat.zero_testBit]
    rcases eq_or_ne i 7 with rfl | hne
    · rw [h, Bool.false_and]
    · rw [h128, Nat.testBit_two_pow_of_ne (Ne.symm hne), Bool.and_false]

lemma shiftLeft_xor_distrib (x y n : ℕ) : (x ^^^ y) <<< n = (x <<< n) ^^^ (y <<< n) := by
  apply Nat.eq_of_testBit_eq
  intro i
  simp [Nat.testBit_shiftLeft, Nat.testBit_xor, Bool.and_xor_distrib_left]

lemma crcStep_eq (x : ℕ) : crcStep x = (x <<< 1) ^^^ (cond (x.testBit 7) 0x131 0) := by
  unfold crcStep
  rcases h : x.testBit 7
  · rw [if_pos ((and128_eq_zero_iff x).mpr h), cond_false, Nat.xor_zero]
  · have hne : ¬ x &&& 128 = 0 := by simp [and128_eq_zero_iff, h]
    rw [if_neg hne, cond_true]

lemma crcStep_xor (x y : ℕ) : crcStep (x ^^^ y) = crcStep x ^^^ crcStep y := by
  rw [crcStep_eq x, crcStep_eq y, crcStep_eq (x ^^^ y), shiftLeft_xor_distrib, Nat.testBit_xor]
  cases hx : x.testBit 7 <;> cases hy : y.testBit 7 <;>
    simp only [Bool.false_xor, Bool.xor_false, Bool.true_xor, Bool.xor_true,
      Bool.not_true, Bool.not_false, cond_true, cond_false, Nat.xor_zero] <;>
    first
      | ac_rfl
      | (rw [(by ac_rfl :
            ((x <<< 1) ^^^ 0x131) ^^^ ((y <<< 1) ^^^ 0x131) =
              (0x131 ^^^ 0x131) ^^^ ((x <<< 1) ^^^ (y <<< 1))), Nat.xor_self, Nat.zero_xor])

lemma crcIter_xor (n x y : ℕ) : crcStep^[n] (x ^^^ y) = crcStep^[n] x ^^^ crcStep^[n] y := by
  induction n with
  | zero => simp
  | succ k ih =>
    rw [Function.iterate_succ_apply', Function.iterate_succ_apply', Function.iterate_succ_apply',
      ih, crcStep_xor]

lemma crc8_pair (b0 b1 : ℕ) :
    crc8 [b0, b1] = crcStep^[8] ((crcStep^[8] (0xFF ^^^ b0)) ^^^ b1) := by
  simp [crc8, crcByte, List.foldl, Nat.xor_zero]

lemma crc8_flip0 (b0 b1 d : ℕ) :
    crc8 [b0 ^^^ d, b1] = crc8 [b0, b1] ^^^ crcStep^[8] (crcStep^[8] d) := by
  simp only [crc8_pair, crcIter_xor]
  ac_rfl

lemma crc8_flip1 (b0 b1 d : ℕ) :
    crc8 [b0, b1 ^^^ d] = crc8 [b0, b1] ^^^ crcStep^[8] d := by
  simp only [crc8_pair, crcIter_xor]
  ac_rfl

lemma crc_injectors_ne_zero :
    ∀ i < 8, crcStep^[8] (2 ^ i) ≠ 0 ∧ crcStep^[8] (crcStep^[8] (2 ^ i)) ≠ 0 := by decide

lemma xor_ne_self (a d : ℕ) (hd : d ≠ 0) : a ^^^ d ≠ a := by
  intro h
  apply hd
  have h2 : a ^^^ (a ^^^ d) = a ^^^ a := by rw [h]
  rwa [← Nat.xor_assoc, Nat.xor_self, Nat.zero_xor] at h2

set_option maxRecDepth 4000 in
lemma crcStep_bound : ∀ c < 256, crcStep c < 256 := by decide

lemma crcIter_bound (n : ℕ) : ∀ c < 256, crcStep^[n] c < 256 := by
  induction n with
  | zero => intro c hc; simpa using hc
  | succ k ih =>
    intro c hc
    rw [Function.iterate_succ_apply']
    exact crcStep_bound _ (ih c hc)

lemma crcByte_bound (crc byte : ℕ) (hc : crc < 256) (hb : byte < 256) :
    crcByte crc byte < 256 := by
  have h8 : (256 : ℕ) = 2 ^ 8 := by norm_num
  have h : crc ^^^ byte < 256 := by
    rw [h8] at hc hb ⊢
    exact Nat.xor_lt_two_pow hc hb
  simpa [crcByte, Nat.xor_zero] using crcIter_bound 8 _ h

lemma crc8_foldl_bound :
    ∀ (l : List ℕ) (crc : ℕ), crc < 256 → (∀ b ∈ l, b ≤ 255) → l.foldl crcByte crc < 256 := by
  intro l
  induction l with
  | nil => intro crc hc _; simpa using hc
  | cons a t ih =>
    intro crc hc hb
    simp only [List.foldl_cons]
    refine ih _ (crcByte_bound _ _ hc (Nat.lt_succ_of_le (hb a ?_))) fun b hbt => hb b ?_
    · simp
    · simp [hbt]

end Sensirion

/-- Claim C1: appending `crc8` of a 2-byte word as its checksum byte makes
`check_crc` succeed on the 3-byte group, and flipping any single bit of
either byte of the word changes its `crc8`, so `check_crc` of the flipped
word against the original checksum fails. -/
theorem crc8_append_verifies_and_flip_detected (b0 b1 : ℕ) (h0 : b0 ≤ 255) (h1 : b1 ≤ 255) :
    Sensirion.check_crc [b0, b1, Sensirion.crc8 [b0, b1]] = some true ∧
    ∀ i < 8,
      Sensirion.crc8 [b0 ^^^ 2 ^ i, b1] ≠ Sensirion.crc8 [b0, b1] ∧
      Sensirion.crc8 [b0, b1 ^^^ 2 ^ i] ≠ Sensirion.crc8 [b0, b1] ∧
      Sensirion.check_crc [b0 ^^^ 2 ^ i, b1, Sensirion.crc8 [b0, b1]] = some false ∧
      Sensirion.check_crc [b0, b1 ^^^ 2 ^ i, Sensirion.crc8 [b0, b1]] = some false := by
  constructor
  · simp [Sensirion.check_crc]
  · intro i hi
    have hne0 : Sensirion.crc8 [b0 ^^^ 2 ^ i, b1] ≠ Sensirion.crc8 [b0, b1] := by
      rw [Sensirion.crc8_flip0]
      exact Sensirion.xor_ne_self _ _ (Sensirion.crc_injectors_ne_zero i hi).2
    have hne1 : Sensirion.crc8 [b0, b1 ^^^ 2 ^ i] ≠ Sensirion.crc8 [b0, b1] := by
      rw [Sensirion.crc8_flip1]
      exact Sensirion.xor_ne_self _ _ (Sensirion.crc_injectors_ne_zero i hi).1
    refine ⟨hne0, hne1, ?_, ?_⟩
    · simp [Sensirion.check_crc]
      exact fun h => hne0 h.symm
    · simp [Sensirion.check_crc]
      exact fun h => hne1 h.symm

/-- Witness for C1 at the word 0xBEEF, flipping bit 0 of the first byte. -/
theorem crc8_append_verifies_and_flip_detected_witness :
    ((0xBE : ℕ) ≤ 255 ∧ (0xEF : ℕ) ≤ 255 ∧ 0 < 8) ∧
    Sensirion.check_crc [0xBE, 0xEF, Sensirion.crc8 [0xBE, 0xEF]] = some true ∧
    Sensirion.crc8 [0xBE ^^^ 2 ^ 0, 0xEF] ≠ Sensirion.crc8 [0xBE, 0xEF] :=
  ⟨by decide,
    (crc8_append_verifies_and_flip_detected 0xBE 0xEF (by decide) (by decide)).1,
    ((crc8_append_verifies_and_flip_detected 0xBE 0xEF (by decide) (by decide)).2 0
      (by decide)).1⟩

/-- Claim C9: for byte-valued input, `crc8` stays within 8 bits: the
conditional XOR with 0x131 after each left shift keeps the register below
256 at every step, and the final `crc ^= 0x00` of each byte pass is a
no-op. -/
theorem crc8_fits_in_8_bits (buffer : List ℕ) (h : ∀ b ∈ buffer, b ≤ 255) :
    Sensirion.crc8 buffer ≤ 255 ∧
    ∀ crc byte, Sensirion.crcByte crc byte = Sensirion.crcStep^[8] (crc ^^^ byte) := by
  constructor
  · exact Nat.lt_succ_iff.mp (Sensirion.crc8_foldl_bound buffer 0xFF (by norm_num) h)
  · intro crc byte
    simp [Sensirion.crcByte]

/-- Witness for C9 at the buffer [0xBE, 0xEF]. -/
theorem crc8_fits_in_8_bits_witness :
    (∀ b ∈ [0xBE, 0xEF], b ≤ 255) ∧ Sensirion.crc8 [0xBE, 0xEF] ≤ 255 :=
  ⟨by decide, (crc8_fits_in_8_bits [0xBE, 0xEF] (by decide)).1⟩

/-- Claim C2 evidence: on a device whose ready-status register never reports
ready, the polling loop of `fetch()` completes after no number of
iterations — `fetchPoll` returns `none` for every fuel bound, i.e. the loop
has no retry cap and never raises a timeout. -/
theorem fetch_poll_never_ready_spins_forever :
    ∀ fuel k, SCD.fetchPoll (fun _ => 0) fuel k = none := by
  intro fuel
  induction fuel with
  | zero => intro k; rfl
  | succ n ih =>
    intro k
    simp [SCD.fetchPoll, ih]

/-- Claim C3 counterexample: a session in which open and body succeed but
`stop()` raises `OSError` during teardown ends with the bus still open and
the error propagating — `bus.close()` was skipped, so the handle leaks past
the guard's boundary. -/
theorem i2c_daq_stop_oserror_leaks_bus :
    Sensirion.i2c_daq none none (some .osError) { busOpen := false } =
      ({ busOpen := true }, some .osError) := rfl

/-- Claim C3 (amended): on every exit path the guard's teardown attempts
`stop()` first, and whenever `stop()` returns normally or raises the
tolerated `TypeError` (never-started device), the bus is closed on exit;
only a `stop()` failure with a different exception skips the close. -/
theorem i2c_daq_closes_bus_when_stop_tolerated
    (openO bodyO stopO : Option PyExc) (s : BusState)
    (h : stopO = none ∨ stopO = some .typeError) :
    (Sensirion.i2c_daq openO bodyO stopO s).1.busOpen = false := by
  rcases h with rfl | rfl <;> cases openO <;> cases bodyO <;> rfl

/-- Witness for the amended C3 on the normal exit path. -/
theorem i2c_daq_closes_bus_when_stop_tolerated_witness :
    ((none : Option PyExc) = none ∨ (none : Option PyExc) = some .typeError) ∧
    (Sensirion.i2c_daq none none none { busOpen := false }).1.busOpen = false :=
  ⟨Or.inl rfl,
    i2c_daq_closes_bus_when_stop_tolerated none none none { busOpen := false } (Or.inl rfl)⟩

/-- Claim C4 evidence: assigning the out-of-range reference 300 to the
SCD30 CO2 FRC register does fail with zero bus writes, but with `TypeError`
raised by the `printer` wrapper before the setter body — not with the
documented out-of-range validation: every reference, the in-range ones
included, fails identically, the SCD4x altitude assignment fails the same
way for every altitude, and even `SCD4x.stop()` — which the altitude setter
body would run before its range assert — raises `TypeError` before it can
write.  The validation asserts in the setter bodies are unreachable through
property assignment. -/
theorem calibration_setter_assignments_fail_before_validation (co2 alt : ℕ) :
    SCD30.frc_assign 300 = ([], some PyExc.typeError) ∧
    SCD30.frc_assign co2 = ([], some PyExc.typeError) ∧
    SCD4x.altitude_compensation_assign alt = ([], some PyExc.typeError) ∧
    some PyExc.typeError ≠ some PyExc.assertionError ∧
    SCD4x.stop_call = ([], some PyExc.typeError) :=
  ⟨rfl, rfl, rfl, by decide, rfl⟩

/-- Claim C10 counterexample: constructing an SCD30 or SCD4x with its
default arguments issues zero bus write transactions — the very first
property assignment of each constructor raises `TypeError` in the `printer`
wrapper, aborting construction before any write. -/
theorem constructors_issue_no_bus_writes :
    (SCD30.init_trace 2 0 400 0 0).1 = [] ∧
    (SCD30.init_trace 2 0 400 0 0).2 = some PyExc.typeError ∧
    (SCD4x.init_trace 1 400 4 0 101300).1 = [] ∧
    (SCD4x.init_trace 1 400 4 0 101300).2 = some PyExc.typeError :=
  ⟨rfl, rfl, rfl, rfl⟩

/-- Claim C10 (amended): the SCD30 and SCD4x constructors do dispatch their
bus-writing property setters, before any session guard has opened the bus —
but every `printer`-decorated assignment raises `TypeError` before the
setter body can issue its write, so for every argument list construction
aborts at the first setter assignment having issued zero bus writes:
construction performs no bus I/O at all. -/
theorem constructors_abort_before_any_bus_write
    (mi asc frc temp_offset alt asc4 frc4 to4 alt4 ap4 : ℕ) :
    SCD30.init_trace mi asc frc temp_offset alt = ([], some PyExc.typeError) ∧
    SCD4x.init_trace asc4 frc4 to4 alt4 ap4 = ([], some PyExc.typeError) :=
  ⟨rfl, rfl⟩

/-- Claim C5: for every 16-bit raw humidity code, the SHT85, SHT2x and SCD4x
humidity conversions return a strictly positive value, and so does the
ice-branch correction `rhi_conversion` for any temperature and water-branch
value: each conversion floors its rounded result, replacing anything below
0.01 by a small positive constant. -/
theorem rhw_conversions_always_positive (r : ℕ) (hr : r ≤ 65535) (t v : ℝ) :
    0 < SHT85.rhw_conversion r ∧ 0 < SHT2x.rhw_conversion r ∧
    0 < SCD4x.rhw_conversion r ∧ 0 < SHT.rhi_conversion t v := by
  refine ⟨?_, ?_, ?_, ?_⟩
  · simp only [SHT85.rhw_conversion]
    split_ifs with h
    · norm_num
    · have := not_lt.mp h
      linarith
  · simp only [SHT2x.rhw_conversion]
    split_ifs with h
    · norm_num
    · have := not_lt.mp h
      linarith
  · simp only [SCD4x.rhw_conversion]
    split_ifs with h
    · norm_num
    · have := not_lt.mp h
      linarith
  · simp only [SHT.rhi_conversion]
    split_ifs with h
    · norm_num
    · have := not_lt.mp h
      linarith

/-- Witness for C5 at the raw code 0 (and trivial real arguments). -/
theorem rhw_conversions_always_positive_witness :
    (0 : ℕ) ≤ 65535 ∧ 0 < SHT85.rhw_conversion 0 :=
  ⟨by decide, (rhw_conversions_always_positive 0 (by decide) 0 0).1⟩

/-- Claim C8 counterexample: the raw temperature code 0x6683 = 26243 decodes
through `round(-45 + 175 * 26243 / 65535, 2)` to 25.08 °C, which is not
approximately 21.1 °C (it differs by more than 1). -/
theorem temp_code_0x6683_not_21_1 :
    SHT85.temp_conversion 0x6683 ≠ 211 / 10 ∧
    ¬ |SHT85.temp_conversion 0x6683 - 211 / 10| < 1 := by
  have h : SHT85.temp_conversion 0x6683 = 2508 / 100 := by
    simp only [SHT85.temp_conversion, round2]
    norm_num [round_eq]
  rw [h]
  constructor
  · norm_num
  · rw [not_lt]
    rw [abs_of_nonneg (by norm_num : (0 : ℚ) ≤ 2508 / 100 - 211 / 10)]
    norm_num

/-- Claim C8 (amended): the raw temperature code 0x6683 = 26243 decodes to
25.08 °C on the families with span -45..+130 over 16 bits (SHT85 and SCD4x):
-45 + 175 * 26243 / 65535 = 25.0774..., rounded to 2 decimals. -/
theorem temp_code_0x6683_decodes_to_25_08 :
    SHT85.temp_conversion 0x6683 = 2508 / 100 ∧
    SCD4x.temp_conversion 0x6683 = 2508 / 100 := by
  constructor <;>
    · simp only [SHT85.temp_conversion, SCD4x.temp_conversion, round2]
      norm_num [round_eq]

lemma round2R_mono {x y : ℝ} (h : x ≤ y) : round2R x ≤ round2R y := by
  unfold round2R
  have hr : round (100 * x) ≤ round (100 * y) := by
    rw [round_eq, round_eq]
    exact Int.floor_le_floor (by linarith)
  have hc : ((round (100 * x) : ℤ) : ℝ) ≤ ((round (100 * y) : ℤ) : ℝ) := Int.cast_le.mpr hr
  linarith

lemma round2R_two_decimals (k : ℤ) : round2R ((k : ℝ) / 100) = (k : ℝ) / 100 := by
  unfold round2R
  rw [show (100 : ℝ) * ((k : ℝ) / 100) = (k : ℝ) by ring, round_intCast]

lemma round2R_ge (x : ℝ) : x - 1 / 200 ≤ round2R x := by
  have h := abs_sub_round (100 * x)
  have h2 : 100 * x - ((round (100 * x) : ℤ) : ℝ) ≤ 1 / 2 := (abs_le.mp h).2
  unfold round2R
  linarith

lemma dew_core_le (beta lam t c2 : ℝ) (hb : 0 < beta) (hl : 0 < lam)
    (hlt : 0 < lam + t) (hc2 : c2 ≤ 0) :
    lam * (c2 + beta * t / (lam + t)) / (beta - c2 - beta * t / (lam + t)) ≤ t := by
  have hlt' : lam + t ≠ 0 := ne_of_gt hlt
  have h1 : beta * t / (lam + t) * (lam + t) = beta * t := by
    field_simp
  have hbc : beta - beta * t / (lam + t) = beta * lam / (lam + t) := by
    field_simp
    ring
  have hq : 0 < beta * lam / (lam + t) := div_pos (mul_pos hb hl) hlt
  have hden : 0 < beta - c2 - beta * t / (lam + t) := by linarith
  rw [div_le_iff₀ hden]
  have hcp : c2 * (lam + t) ≤ 0 := mul_nonpos_iff.mpr (Or.inr ⟨hc2, hlt.le⟩)
  nlinarith [h1, hcp]

/-- Claim C6 (amended): for every temperature with two decimal places (as all
decoded temperatures are) at least -46.85 °C, and every relative humidity
with 0 < rh ≤ 100, the Magnus dew point is at most the temperature.  (The
bound rh ≤ 100 is necessary: the SHT2x pipeline can produce rh up to 118.99,
where the dew point exceeds the temperature.) -/
theorem dew_point_le_temperature (t rh : ℝ) (k : ℤ) (ht : t = (k : ℝ) / 100)
    (htl : -46.85 ≤ t) (hrh0 : 0 < rh) (hrh100 : rh ≤ 100) :
    ConversionUtils.dew_point t rh ≤ t := by
  have hc2 : Real.log (rh / 100) ≤ 0 :=
    Real.log_nonpos (by positivity) (by linarith)
  have hround : round2R t = t := by
    rw [ht]
    exact round2R_two_decimals k
  unfold ConversionUtils.dew_point
  split_ifs with h0
  · have hcore := dew_core_le 17.62 243.12 t (Real.log (rh / 100)) (by norm_num) (by norm_num)
      (by linarith) hc2
    calc round2R (243.12 * (Real.log (rh / 100) + 17.62 * t / (243.12 + t)) /
          (17.62 - Real.log (rh / 100) - 17.62 * t / (243.12 + t)))
        ≤ round2R t := round2R_mono hcore
      _ = t := hround
  · have hcore := dew_core_le 22.46 272.62 t (Real.log (rh / 100)) (by norm_num) (by norm_num)
      (by norm_num at htl ⊢; linarith) hc2
    calc round2R (272.62 * (Real.log (rh / 100) + 22.46 * t / (272.62 + t)) /
          (22.46 - Real.log (rh / 100) - 22.46 * t / (272.62 + t)))
        ≤ round2R t := round2R_mono hcore
      _ = t := hround

/-- Witness for the amended C6 at t = 20 °C, rh = 50 %. -/
theorem dew_point_le_temperature_witness :
    ((20 : ℝ) = ((2000 : ℤ) : ℝ) / 100) ∧ ((-46.85 : ℝ) ≤ 20) ∧ ((0 : ℝ) < 50) ∧
    ((50 : ℝ) ≤ 100) ∧ ConversionUtils.dew_point 20 50 ≤ 20 :=
  ⟨by norm_num, by norm_num, by norm_num, by norm_num,
    dew_point_le_temperature 20 50 2000 (by norm_num) (by norm_num) (by norm_num) (by norm_num)⟩


/-- Claim C6 counterexample: the SHT2x pipeline can produce the measurement
t = 23.51 °C (raw temperature code 26240) with rh = 118.99 % (raw humidity
code 65532, the largest code after the status-bit mask), and at that pair —
with rh > 0 — the computed dew point exceeds the temperature. -/
theorem dew_point_exceeds_temperature_on_sht2x_pipeline :
    SHT2x.temp_conversion 26240 = 2351 / 100 ∧
    SHT2x.rhw_conversion 65532 = 11899 / 100 ∧
    (0 : ℚ) < 11899 / 100 ∧
    ((2351 : ℝ) / 100) < ConversionUtils.dew_point (2351 / 100) (11899 / 100) := by
  refine ⟨?_, ?_, by norm_num, ?_⟩
  · simp only [SHT2x.temp_conversion, round2]
    norm_num [round_eq]
  · simp only [SHT2x.rhw_conversion, round2]
    norm_num [round_eq]
  · have harg : (11899 : ℝ) / 100 / 100 = 11899 / 10000 := by norm_num
    have hx : (0 : ℝ) < 11899 / 10000 := by norm_num
    have hlog_ub : Real.log ((11899 : ℝ) / 100 / 100) ≤ 1899 / 10000 := by
      rw [harg]
      have h := Real.log_le_sub_one_of_pos hx
      linarith
    have hlog_lb : (1899 : ℝ) / 11899 ≤ Real.log ((11899 : ℝ) / 100 / 100) := by
      rw [harg]
      have h1 : Real.exp (-Real.log ((11899 : ℝ) / 10000)) = 10000 / 11899 := by
        rw [Real.exp_neg, Real.exp_log hx]
        norm_num
      have h2 := Real.add_one_le_exp (-Real.log ((11899 : ℝ) / 10000))
      rw [h1] at h2
      linarith
    unfold ConversionUtils.dew_point
    rw [if_pos (by norm_num : (0 : ℝ) ≤ 2351 / 100)]
    have hc1 : (17.62 : ℝ) * (2351 / 100) / (243.12 + 2351 / 100) = 4142462 / 2666300 := by
      norm_num
    rw [hc1]
    have hden : (0 : ℝ) <
        17.62 - Real.log ((11899 : ℝ) / 100 / 100) - 4142462 / 2666300 := by
      linarith
    have hD : (26 : ℝ) ≤
        243.12 * (Real.log ((11899 : ℝ) / 100 / 100) + 4142462 / 2666300) /
          (17.62 - Real.log ((11899 : ℝ) / 100 / 100) - 4142462 / 2666300) := by
      rw [le_div_iff₀ hden]
      linarith
    have hr := round2R_ge (243.12 * (Real.log ((11899 : ℝ) / 100 / 100) + 4142462 / 2666300) /
      (17.62 - Real.log ((11899 : ℝ) / 100 / 100) - 4142462 / 2666300))
    linarith

/-- Claim C7 counterexample: the SHT85 decode with raw temperature code 0
yields t = -45 °C, which is below freezing, yet `SHT85.read_measurement`
returns the water-calibrated humidity unchanged (its branch threshold is
-45, not 0), while the ice correction at that point would change the value
(for rhw = 50 it yields more than 51). -/
theorem sht85_applies_no_ice_correction_below_zero :
    SHT85.temp_conversion 0 = -45 ∧
    ((-45 : ℝ) < 0) ∧
    SHT85.rh_select (-45) 50 = 50 ∧
    SHT.rhi_conversion (-45) 50 ≠ 50 := by
  refine ⟨?_, by norm_num, ?_, ?_⟩
  · simp only [SHT85.temp_conversion, round2]
    norm_num [round_eq]
  · unfold SHT85.rh_select
    rw [if_pos (by norm_num : (-45 : ℝ) ≤ -45)]
  · unfold SHT.rhi_conversion SHT.WT_water_beta SHT.WT_water_lambda SHT.WT_ice_beta SHT.WT_ice_lambda
    have hvalue : (50 : ℝ) * Real.exp (17.62 * (-45) / 243.12) /
        Real.exp (22.46 * (-45) / 272.62) =
        50 * Real.exp (17.62 * (-45) / 243.12 - 22.46 * (-45) / 272.62) := by
      rw [mul_div_assoc, ← Real.exp_sub]
    have hexpo : (0.44 : ℝ) ≤ 17.62 * (-45) / 243.12 - 22.46 * (-45) / 272.62 := by
      norm_num
    have hexp : (1.44 : ℝ) ≤ Real.exp (17.62 * (-45) / 243.12 - 22.46 * (-45) / 272.62) := by
      have h := Real.add_one_le_exp (17.62 * (-45 : ℝ) / 243.12 - 22.46 * (-45) / 272.62)
      linarith
    have hv : (72 : ℝ) ≤ (50 : ℝ) * Real.exp (17.62 * (-45) / 243.12) /
        Real.exp (22.46 * (-45) / 272.62) := by
      rw [hvalue]
      linarith
    have hround := round2R_ge ((50 : ℝ) * Real.exp (17.62 * (-45) / 243.12) /
      Real.exp (22.46 * (-45) / 272.62))
    rw [if_neg (by linarith)]
    intro hcontra
    linarith [hcontra.ge, hcontra.le]

/-- Claim C7 (amended): the base-class `SHT.read_measurement` applies the
ice-branch correction exactly when t < 0 °C, but `SHT85.read_measurement`
and `SHT2x.read_measurement` use the threshold -45 °C instead: they return
the water-calibrated value for every t ≥ -45 — hence for every decodable
temperature of those families — and would apply the correction only below
-45 °C. -/
theorem rh_ice_branch_thresholds (t rhw : ℝ) :
    (0 ≤ t → SHT.rh_select t rhw = rhw) ∧
    (t < 0 → SHT.rh_select t rhw = SHT.rhi_conversion t rhw) ∧
    (-45 ≤ t → SHT85.rh_select t rhw = rhw) ∧
    (t < -45 → SHT85.rh_select t rhw = SHT.rhi_conversion t rhw) ∧
    (-45 ≤ t → SHT2x.rh_select t rhw = rhw) ∧
    (t < -45 → SHT2x.rh_select t rhw = SHT.rhi_conversion t rhw) := by
  unfold SHT.rh_select SHT85.rh_select SHT2x.rh_select
  exact ⟨fun h => if_pos h, fun h => if_neg (not_le.mpr h),
    fun h => if_pos h, fun h => if_neg (not_le.mpr h),
    fun h => if_pos h, fun h => if_neg (not_le.mpr h)⟩

/-- Witness for the amended C7 at t = -1 °C, rhw = 50 %: the base class
corrects, the SHT85 branch does not. -/
theorem rh_ice_branch_thresholds_witness :
    ((-1 : ℝ) < 0) ∧ ((-45 : ℝ) ≤ -1) ∧
    SHT.rh_select (-1) 50 = SHT.rhi_conversion (-1) 50 ∧
    SHT85.rh_select (-1) 50 = 50 :=
  ⟨by norm_num, by norm_num,
    (rh_ice_branch_thresholds (-1) 50).2.1 (by norm_num),
    (rh_ice_branch_thresholds (-1) 50).2.2.1 (by norm_num)⟩
